import Mathlib

/-!
Shallow embedding of `src/app.py` (GitHub webhook monitor: Flask app that
normalizes push / pull-request webhook payloads into event documents,
deduplicates them by `request_id` in a MongoDB collection, and serves a
timestamp-sorted feed).

The MongoDB collection is modelled as a `List EventDoc` (insertion order);
`collection.find_one({'request_id': k})` is `List.find?` on the key and
`collection.insert_one` appends.  JSON field lookups that may raise
`KeyError` are modelled as `Option`-valued fields: `none` means the lookup
along that path fails, in which case the handler's `try/except` drops the
notification.
-/

namespace Webhook

/-- The `action` field of a stored event document:
`'PUSH'`, `'PULL_REQUEST'` or `'MERGE'` in `app.py`. -/
inductive EventAction where
  | PUSH
  | PULL_REQUEST
  | MERGE
deriving DecidableEq, Repr

/-- The event document built by `handle_push_event` / `handle_pull_request_event`
(`event_doc` in `app.py`): fields `request_id`, `author`, `action`,
`from_branch`, `to_branch`, `timestamp`. -/
structure EventDoc where
  request_id : String
  author : String
  action : EventAction
  from_branch : Option String
  to_branch : String
  timestamp : String
deriving DecidableEq, Repr

/-- A push payload as accessed by `handle_push_event`: each field is the
value found at the corresponding path (`payload['head_commit']['id']`,
`payload['pusher']['name']`, `payload['ref']`,
`payload['head_commit']['timestamp']`); `none` when any lookup on the path
raises `KeyError`. -/
structure PushPayload where
  head_commit_id : Option String
  pusher_name : Option String
  ref : Option String
  head_commit_timestamp : Option String
deriving DecidableEq, Repr

/-- A pull-request payload as accessed by `handle_pull_request_event`.
`pr_id` is `str(pull_request['id'])`; `merged_at` is `none` exactly when the
`merged_at` key is absent (the code reads it with `.get`); `merged` is
`pull_request.get('merged', False)`, so an absent key is already `false`. -/
structure PRPayload where
  action : Option String
  pr_id : Option String
  user_login : Option String
  head_ref : Option String
  base_ref : Option String
  created_at : Option String
  merged_at : Option String
  updated_at : Option String
  merged : Bool
deriving DecidableEq, Repr

/-- Python's `list.split(sep)` for a single-character separator, on the
character list: splitting never yields `[]` (splitting the empty string
yields `[[]]`). -/
def splitChar (sep : Char) : List Char → List (List Char)
  | [] => [[]]
  | c :: rest =>
    if c = sep then
      [] :: splitChar sep rest
    else
      match splitChar sep rest with
      | [] => [[c]]
      | g :: gs => (c :: g) :: gs

/-- `payload['ref'].split('/')[-1]` from `handle_push_event` line 74:
the last `'/'`-separated segment of the string (Python's `[-1]` on the
never-empty result of `split`). -/
def lastSegment (s : String) : String :=
  String.mk ((splitChar '/' s.data).getLastD [])

/-- The extraction phase of `handle_push_event` (lines 72-85): builds the
event document, or fails (`none`) when any required field lookup raises. -/
def pushDoc (p : PushPayload) : Option EventDoc :=
  match p.head_commit_id, p.pusher_name, p.ref, p.head_commit_timestamp with
  | some rid, some author, some r, some ts =>
      some { request_id := rid
             author := author
             action := .PUSH
             from_branch := none
             to_branch := lastSegment r
             timestamp := ts }
  | _, _, _, _ => none

/-- `collection.find_one({'request_id': rid})`, reduced to whether a record
with that key exists. -/
def findByRequestId (store : List EventDoc) (rid : String) : Option EventDoc :=
  store.find? (fun d => d.request_id == rid)

/-- The duplicate-check-then-insert sequence shared verbatim by both
handlers (lines 88-93 and 140-145): skip when a record with the same
`request_id` exists, otherwise insert. -/
def insert_if_new (doc : EventDoc) (store : List EventDoc) : List EventDoc :=
  if (findByRequestId store doc.request_id).isSome then
    store
  else
    store ++ [doc]

/-- `handle_push_event` (lines 66-97): extract fields, drop the notification
on extraction failure, then check-and-insert. -/
def handle_push_event (p : PushPayload) (store : List EventDoc) : List EventDoc :=
  match pushDoc p with
  | none => store
  | some doc => insert_if_new doc store

/-- Line 113 of `handle_pull_request_event`:
`pull_request['created_at'] if action == 'opened' else
 pull_request.get('merged_at', pull_request['updated_at'])`.
Python evaluates the `.get` default eagerly, so the `else` arm fails when
`updated_at` is absent even if `merged_at` is present. -/
def prTimestamp (p : PRPayload) (action : String) : Option String :=
  if action == "opened" then
    p.created_at
  else
    match p.updated_at with
    | none => none
    | some u => some (p.merged_at.getD u)

/-- The extraction-and-classification phase of `handle_pull_request_event`
(lines 106-127): builds the event document with the prefixed `request_id`,
or fails (`none`) when a lookup raises or the `(action, merged)` combination
is ignored. -/
def prDoc (p : PRPayload) : Option EventDoc :=
  match p.action with
  | none => none
  | some action =>
    match p.pr_id, p.user_login, p.head_ref, p.base_ref with
    | some rid, some author, some fb, some tb =>
      match prTimestamp p action with
      | none => none
      | some ts =>
        if action == "closed" && p.merged then
          some { request_id := "merge_" ++ rid
                 author := author
                 action := .MERGE
                 from_branch := some fb
                 to_branch := tb
                 timestamp := ts }
        else if action == "opened" then
          some { request_id := "pr_" ++ rid
                 author := author
                 action := .PULL_REQUEST
                 from_branch := some fb
                 to_branch := tb
                 timestamp := ts }
        else
          none
    | _, _, _, _ => none

/-- `handle_pull_request_event` (lines 100-149): extract and classify, drop
on failure or ignored action, then check-and-insert. -/
def handle_pull_request_event (p : PRPayload) (store : List EventDoc) : List EventDoc :=
  match prDoc p with
  | none => store
  | some doc => insert_if_new doc store

/-- The JSON body of one webhook request, with the projections each handler
would read from it. -/
structure WebhookPayload where
  push : PushPayload
  pr : PRPayload
deriving DecidableEq, Repr

/-- The response of the `/webhook` endpoint: the `status` string of the JSON
body and the HTTP status code. -/
structure WebhookResponse where
  status : String
  code : Nat
deriving DecidableEq, Repr

/-- The `/webhook` endpoint (lines 42-63): dispatch on the
`X-GitHub-Event` header (`none` when the header is absent), run the matching
handler, and acknowledge with `{'status': 'success'}, 200`. -/
def webhook (eventType : Option String) (payload : WebhookPayload)
    (store : List EventDoc) : List EventDoc × WebhookResponse :=
  if eventType == some "push" then
    (handle_push_event payload.push store, ⟨"success", 200⟩)
  else if eventType == some "pull_request" then
    (handle_pull_request_event payload.pr store, ⟨"success", 200⟩)
  else
    (store, ⟨"success", 200⟩)

/-- One inbound notification: the event-type header and the JSON body. -/
def Notification : Type := Option String × WebhookPayload

/-- Sequential processing of a list of notifications through the webhook
endpoint, tracking only the store. -/
def processAll (ns : List Notification) (store : List EventDoc) : List EventDoc :=
  match ns with
  | [] => store
  | n :: rest => processAll rest (webhook n.1 n.2 store).1

/-- The store invariant: no two records share a `request_id`. -/
def UniqueKeys (store : List EventDoc) : Prop :=
  store.Pairwise (fun a b => a.request_id ≠ b.request_id)

/-! ### Timestamp formatting (`format_timestamp`, lines 171-195) -/

/-- The naive datetime produced by `datetime.fromisoformat`: the wall-clock
fields (any offset is dropped by `strftime`, which prints the naive fields). -/
structure PyDateTime where
  year : Nat
  month : Nat
  day : Nat
  hour : Nat
  minute : Nat
  second : Nat
deriving DecidableEq, Repr

/-- Numeric value of two decimal digit characters. -/
def twoDigits (a b : Char) : Nat :=
  (a.toNat - 48) * 10 + (b.toNat - 48)

/-- Days in a month, with the Gregorian leap-year rule (as validated by
`datetime`). -/
def daysInMonth (y m : Nat) : Nat :=
  if m = 2 then
    if (y % 4 = 0 ∧ y % 100 ≠ 0) ∨ y % 400 = 0 then 29 else 28
  else if m = 4 ∨ m = 6 ∨ m = 9 ∨ m = 11 then 30
  else 31

/-- A valid trailing UTC-offset group: empty, or `±HH:MM` with in-range
fields. -/
def validOffset : List Char → Bool
  | [] => true
  | [sgn, h1, h2, c, m1, m2] =>
      (sgn = '+' || sgn = '-') && h1.isDigit && h2.isDigit && c = ':'
        && m1.isDigit && m2.isDigit && twoDigits h1 h2 < 24 && twoDigits m1 m2 < 60
  | _ => false

/-- `datetime.fromisoformat`, on the `YYYY-MM-DDTHH:MM:SS[±HH:MM]` shape of
timestamps this application handles (the Python function accepts further
ISO-8601 shapes; this embedding only narrows the domain, with the same field
validation on the shapes it accepts). -/
def fromisoformat (s : String) : Option PyDateTime :=
  match s.data with
  | y1 :: y2 :: y3 :: y4 :: c1 :: m1 :: m2 :: c2 :: d1 :: d2 :: c3 ::
      h1 :: h2 :: c4 :: n1 :: n2 :: c5 :: s1 :: s2 :: rest =>
    if y1.isDigit && y2.isDigit && y3.isDigit && y4.isDigit
        && c1 = '-' && m1.isDigit && m2.isDigit && c2 = '-'
        && d1.isDigit && d2.isDigit && c3 = 'T'
        && h1.isDigit && h2.isDigit && c4 = ':'
        && n1.isDigit && n2.isDigit && c5 = ':'
        && s1.isDigit && s2.isDigit && validOffset rest then
      if 1 ≤ twoDigits m1 m2 ∧ twoDigits m1 m2 ≤ 12 ∧ 1 ≤ twoDigits d1 d2
          ∧ twoDigits d1 d2 ≤
              daysInMonth (twoDigits y1 y2 * 100 + twoDigits y3 y4) (twoDigits m1 m2)
          ∧ twoDigits h1 h2 ≤ 23 ∧ twoDigits n1 n2 ≤ 59 ∧ twoDigits s1 s2 ≤ 59 then
        some ⟨twoDigits y1 y2 * 100 + twoDigits y3 y4, twoDigits m1 m2,
              twoDigits d1 d2, twoDigits h1 h2, twoDigits n1 n2, twoDigits s1 s2⟩
      else
        none
    else
      none
  | _ => none

/-- `strftime`'s `%B`: the full month name. -/
def monthName : Nat → String
  | 1 => "January"
  | 2 => "February"
  | 3 => "March"
  | 4 => "April"
  | 5 => "May"
  | 6 => "June"
  | 7 => "July"
  | 8 => "August"
  | 9 => "September"
  | 10 => "October"
  | 11 => "November"
  | 12 => "December"
  | _ => ""

/-- Zero-padding to two digits (`%d`, `%I`, `%M` on in-range values). -/
def pad2 (n : Nat) : String :=
  if n < 10 then "0" ++ toString n else toString n

/-- `strftime`'s `%I`: the 12-hour clock hour. -/
def hour12 (h : Nat) : Nat :=
  (h + 11) % 12 + 1

/-- `strftime`'s `%p`: `AM` before noon, `PM` from noon on. -/
def meridiem (h : Nat) : String :=
  if h < 12 then "AM" else "PM"

/-- Python's `timestamp_str.replace('Z', '+00:00')` on the characters:
every occurrence of `'Z'` becomes `+00:00`. -/
def replaceZChars : List Char → List Char
  | [] => []
  | c :: rest =>
    if c = 'Z' then
      '+' :: '0' :: '0' :: ':' :: '0' :: '0' :: replaceZChars rest
    else
      c :: replaceZChars rest

/-- Line 178's argument: `timestamp_str.replace('Z', '+00:00')`. -/
def pyReplaceZ (s : String) : String :=
  String.mk (replaceZChars s.data)

/-- Lines 181-185 of `format_timestamp`: the ordinal suffix of the day
(`'th'` for `10 <= day % 100 <= 20`, otherwise by `day % 10`). -/
def ordinalSuffix (day : Nat) : String :=
  if 10 ≤ day % 100 ∧ day % 100 ≤ 20 then
    "th"
  else
    match day % 10 with
    | 1 => "st"
    | 2 => "nd"
    | 3 => "rd"
    | _ => "th"

/-- Line 188: `dt.strftime(f"%d{suffix} %B %Y - %I:%M %p UTC")`.  Line 189
replaces a substring with itself and is the identity. -/
def strftimeRender (dt : PyDateTime) (suffix : String) : String :=
  pad2 dt.day ++ suffix ++ " " ++ monthName dt.month ++ " " ++ toString dt.year
    ++ " - " ++ pad2 (hour12 dt.hour) ++ ":" ++ pad2 dt.minute ++ " "
    ++ meridiem dt.hour ++ " UTC"

/-- Modelled from the spec: the spec's own statement of the suffix rule
(days 11, 12, 13 use `"th"`; otherwise the last digit decides:
1 → st, 2 → nd, 3 → rd, default th), stated independently of the code's
`10 <= day % 100 <= 20` test so the two can be compared. -/
def claimedSuffix (d : Nat) : String :=
  if d = 11 ∨ d = 12 ∨ d = 13 then
    "th"
  else
    match d % 10 with
    | 1 => "st"
    | 2 => "nd"
    | 3 => "rd"
    | _ => "th"

/-- `format_timestamp` (lines 171-195): parse after replacing `Z` with
`+00:00`; on success render with the ordinal suffix, on failure (the
`except` branch) return the input string unchanged. -/
def format_timestamp (s : String) : String :=
  match fromisoformat (pyReplaceZ s) with
  | none => s
  | some dt => strftimeRender dt (ordinalSuffix dt.day)

/-! ### Feed query (`get_events`, lines 152-169) -/

/-- One element of the `/events` response: the stored document plus the
`formatted_timestamp` added in line 163. -/
structure DisplayEvent extends EventDoc where
  formatted_timestamp : String
deriving DecidableEq, Repr

/-- The descending-timestamp order used by `.sort('timestamp', -1)`:
`a` may come before `b` when `b.timestamp ≤ a.timestamp` (string order,
which on these ISO-8601 strings is the byte order MongoDB compares with). -/
def tsGe (a b : EventDoc) : Prop :=
  b.timestamp ≤ a.timestamp

instance : DecidableRel tsGe := fun a b =>
  inferInstanceAs (Decidable (b.timestamp ≤ a.timestamp))

instance : IsTotal EventDoc tsGe :=
  ⟨fun a b => le_total b.timestamp a.timestamp⟩

instance : IsTrans EventDoc tsGe :=
  ⟨fun _ _ _ h1 h2 => le_trans h2 h1⟩

/-- `get_events` (lines 152-169): all stored records sorted by timestamp
descending (a stable sort; MongoDB leaves ties unspecified), each augmented
with its `formatted_timestamp`. -/
def get_events (store : List EventDoc) : List DisplayEvent :=
  (List.insertionSort tsGe store).map
    (fun d => { d with formatted_timestamp := format_timestamp d.timestamp })

/-! ### Store-failure model (for the error-handling behavior of the
handlers' `try/except` blocks) -/

/-- Which store calls raise (a lookup/insert error or timeout surfaces as a
pymongo exception). -/
structure StoreFaults where
  findFails : Bool
  insertFails : Bool
deriving DecidableEq, Repr

/-- `handle_push_event` with faulting store calls: an exception from
`find_one` or `insert_one` is caught by the handler's own `except` (lines
96-97), which logs and returns; nothing is stored and nothing propagates. -/
def handle_push_eventF (f : StoreFaults) (p : PushPayload)
    (store : List EventDoc) : List EventDoc :=
  match pushDoc p with
  | none => store
  | some doc =>
    if f.findFails then
      store
    else if (findByRequestId store doc.request_id).isSome then
      store
    else if f.insertFails then
      store
    else
      store ++ [doc]

/-- `handle_pull_request_event` with faulting store calls (caught at lines
148-149). -/
def handle_pull_request_eventF (f : StoreFaults) (p : PRPayload)
    (store : List EventDoc) : List EventDoc :=
  match prDoc p with
  | none => store
  | some doc =>
    if f.findFails then
      store
    else if (findByRequestId store doc.request_id).isSome then
      store
    else if f.insertFails then
      store
    else
      store ++ [doc]

/-- The `/webhook` endpoint over the faulting store: handler exceptions
never reach the endpoint's own `try`, so every dispatch still answers
`{'status': 'success'}, 200`. -/
def webhookF (f : StoreFaults) (eventType : Option String)
    (payload : WebhookPayload) (store : List EventDoc) :
    List EventDoc × WebhookResponse :=
  if eventType == some "push" then
    (handle_push_eventF f payload.push store, ⟨"success", 200⟩)
  else if eventType == some "pull_request" then
    (handle_pull_request_eventF f payload.pr store, ⟨"success", 200⟩)
  else
    (store, ⟨"success", 200⟩)

/-! ### Concurrency model of the check-then-insert sequence

The duplicate check (line 88 / 140) and the insert (line 93 / 145) are two
separate store calls.  Each in-flight notification is a thread that first
runs the check, then (if the check saw no duplicate) the insert; a schedule
interleaves the atomic store calls of two threads. -/

/-- One in-flight check-then-insert: the document to store, a program
counter (0 = before the `find_one`, 1 = between the two calls, 2 = done),
and the result the `find_one` returned. -/
structure Thread where
  doc : EventDoc
  pc : Nat
  sawDup : Bool
deriving DecidableEq, Repr

/-- Run the next atomic store call of a thread. -/
def stepThread (t : Thread) (store : List EventDoc) : Thread × List EventDoc :=
  if t.pc = 0 then
    ({ t with pc := 1, sawDup := (findByRequestId store t.doc.request_id).isSome },
      store)
  else if t.pc = 1 then
    ({ t with pc := 2 }, if t.sawDup then store else store ++ [t.doc])
  else
    (t, store)

/-- Run a schedule over two threads: `true` steps the first thread, `false`
the second. -/
def runSchedule : List Bool → Thread → Thread → List EventDoc →
    Thread × Thread × List EventDoc
  | [], t1, t2, s => (t1, t2, s)
  | b :: rest, t1, t2, s =>
    if b then
      let p := stepThread t1 s
      runSchedule rest p.1 t2 p.2
    else
      let p := stepThread t2 s
      runSchedule rest t1 p.1 p.2

/-- The outcome a caller observes: `Inserted` exactly when its `find_one`
saw no duplicate (so its `insert_one` ran). -/
def observedInserted (t : Thread) : Prop :=
  t.pc = 2 ∧ t.sawDup = false

instance (t : Thread) : Decidable (observedInserted t) :=
  inferInstanceAs (Decidable (t.pc = 2 ∧ t.sawDup = false))

/-- The number of stored records carrying a given `request_id`. -/
def countKey (store : List EventDoc) (k : String) : Nat :=
  store.countP (fun d => d.request_id == k)

/-- The event document a notification derives: the dispatch of `webhook`
composed with the extraction phase of the matching handler. -/
def notifDoc (n : Notification) : Option EventDoc :=
  if n.1 == some "push" then
    pushDoc n.2.push
  else if n.1 == some "pull_request" then
    prDoc n.2.pr
  else
    none

/-! ### Sample data (used to instantiate the theorems below) -/

/-- A push payload with every required field present. -/
def samplePush : PushPayload :=
  { head_commit_id := "abc123"
    pusher_name := "alice"
    ref := "refs/heads/main"
    head_commit_timestamp := "2024-01-01T00:00:00Z" }

/-- The event document `samplePush` normalizes to. -/
def samplePushDoc : EventDoc :=
  { request_id := "abc123"
    author := "alice"
    action := .PUSH
    from_branch := none
    to_branch := "main"
    timestamp := "2024-01-01T00:00:00Z" }

/-- A pull-request payload with no fields (every lookup raises). -/
def emptyPR : PRPayload :=
  { action := none
    pr_id := none
    user_login := none
    head_ref := none
    base_ref := none
    created_at := none
    merged_at := none
    updated_at := none
    merged := false }

/-- A pull-request payload for an `opened` event with id `123`. -/
def sampleOpenedPR : PRPayload :=
  { action := some "opened"
    pr_id := some "123"
    user_login := some "bob"
    head_ref := some "feature"
    base_ref := some "main"
    created_at := some "2024-02-01T10:00:00Z"
    merged_at := none
    updated_at := some "2024-02-01T10:00:00Z"
    merged := false }

/-- The merge payload for the same pull request as `sampleOpenedPR`. -/
def sampleMergedPR : PRPayload :=
  { action := some "closed"
    pr_id := some "123"
    user_login := some "bob"
    head_ref := some "feature"
    base_ref := some "main"
    created_at := some "2024-02-01T10:00:00Z"
    merged_at := some "2024-02-02T12:00:00Z"
    updated_at := some "2024-02-02T12:00:00Z"
    merged := true }

/-- The event document `sampleOpenedPR` normalizes to. -/
def recOpened123 : EventDoc :=
  { request_id := "pr_123"
    author := "bob"
    action := .PULL_REQUEST
    from_branch := some "feature"
    to_branch := "main"
    timestamp := "2024-02-01T10:00:00Z" }

/-- The event document `sampleMergedPR` normalizes to. -/
def recMerged123 : EventDoc :=
  { request_id := "merge_123"
    author := "bob"
    action := .MERGE
    from_branch := some "feature"
    to_branch := "main"
    timestamp := "2024-02-02T12:00:00Z" }

/-- A push payload with no fields. -/
def emptyPush : PushPayload :=
  { head_commit_id := none
    pusher_name := none
    ref := none
    head_commit_timestamp := none }

/-- A stored record timestamped 2024-01-01T00:00:00Z. -/
def recJan : EventDoc :=
  { request_id := "jan"
    author := "alice"
    action := .PUSH
    from_branch := none
    to_branch := "main"
    timestamp := "2024-01-01T00:00:00Z" }

/-- A stored record timestamped 2024-06-01T00:00:00Z. -/
def recJun : EventDoc :=
  { request_id := "jun"
    author := "alice"
    action := .PUSH
    from_branch := none
    to_branch := "main"
    timestamp := "2024-06-01T00:00:00Z" }

/-! ## Helper lemmas -/

theorem findByRequestId_eq_none (store : List EventDoc) (k : String) :
    findByRequestId store k = none ↔ ∀ d ∈ store, d.request_id ≠ k := by
  unfold findByRequestId
  rw [List.find?_eq_none]
  simp

theorem findByRequestId_isSome (store : List EventDoc) (k : String) :
    (findByRequestId store k).isSome = true ↔ ∃ d ∈ store, d.request_id = k := by
  unfold findByRequestId
  rw [List.find?_isSome]
  simp

theorem insert_if_new_of_mem (doc : EventDoc) (store : List EventDoc)
    (h : doc.request_id ∈ store.map EventDoc.request_id) :
    insert_if_new doc store = store := by
  unfold insert_if_new
  rw [if_pos]
  rw [findByRequestId_isSome]
  simpa [eq_comm] using h

theorem insert_if_new_idem (doc : EventDoc) (store : List EventDoc) :
    insert_if_new doc (insert_if_new doc store) = insert_if_new doc store := by
  unfold insert_if_new
  by_cases hb : (findByRequestId store doc.request_id).isSome = true
  · rw [if_pos hb, if_pos hb]
  · rw [if_neg hb, if_pos]
    rw [findByRequestId_isSome]
    exact ⟨doc, by simp, rfl⟩

theorem uniqueKeys_insert_if_new (doc : EventDoc) (store : List EventDoc)
    (h : UniqueKeys store) : UniqueKeys (insert_if_new doc store) := by
  unfold insert_if_new
  split
  · exact h
  · next hb =>
    unfold UniqueKeys
    rw [List.pairwise_append]
    refine ⟨h, List.pairwise_singleton _ _, ?_⟩
    intro a ha b hb'
    simp only [List.mem_singleton] at hb'
    rw [hb']
    have hnone : findByRequestId store doc.request_id = none :=
      Option.not_isSome_iff_eq_none.mp hb
    exact (findByRequestId_eq_none store doc.request_id).mp hnone a ha

theorem handle_push_event_idem (p : PushPayload) (store : List EventDoc) :
    handle_push_event p (handle_push_event p store) = handle_push_event p store := by
  unfold handle_push_event
  cases hd : pushDoc p with
  | none => rfl
  | some doc => exact insert_if_new_idem doc store

theorem handle_pull_request_event_idem (p : PRPayload) (store : List EventDoc) :
    handle_pull_request_event p (handle_pull_request_event p store) =
      handle_pull_request_event p store := by
  unfold handle_pull_request_event
  cases hd : prDoc p with
  | none => rfl
  | some doc => exact insert_if_new_idem doc store

theorem uniqueKeys_handle_push (p : PushPayload) (store : List EventDoc)
    (h : UniqueKeys store) : UniqueKeys (handle_push_event p store) := by
  unfold handle_push_event
  cases hd : pushDoc p with
  | none => exact h
  | some doc => exact uniqueKeys_insert_if_new doc store h

theorem uniqueKeys_handle_pr (p : PRPayload) (store : List EventDoc)
    (h : UniqueKeys store) : UniqueKeys (handle_pull_request_event p store) := by
  unfold handle_pull_request_event
  cases hd : prDoc p with
  | none => exact h
  | some doc => exact uniqueKeys_insert_if_new doc store h

theorem webhook_fst (et : Option String) (pl : WebhookPayload) (store : List EventDoc) :
    (webhook et pl store).1 =
      if et == some "push" then handle_push_event pl.push store
      else if et == some "pull_request" then handle_pull_request_event pl.pr store
      else store := by
  unfold webhook
  by_cases h1 : (et == some "push") = true
  · simp [h1]
  · by_cases h2 : (et == some "pull_request") = true <;> simp [h1, h2]

theorem uniqueKeys_webhook (n : Notification) (store : List EventDoc)
    (h : UniqueKeys store) : UniqueKeys (webhook n.1 n.2 store).1 := by
  rw [webhook_fst]
  by_cases h1 : (n.1 == some "push") = true
  · simp only [if_pos h1]
    exact uniqueKeys_handle_push _ _ h
  · simp only [if_neg h1]
    by_cases h2 : (n.1 == some "pull_request") = true
    · simp only [if_pos h2]
      exact uniqueKeys_handle_pr _ _ h
    · simp only [if_neg h2]
      exact h

theorem uniqueKeys_processAll (ns : List Notification) (store : List EventDoc)
    (h : UniqueKeys store) : UniqueKeys (processAll ns store) := by
  induction ns generalizing store with
  | nil => exact h
  | cons n rest ih => exact ih _ (uniqueKeys_webhook n store h)

theorem webhook_unchanged_of_dup (n : Notification) (store : List EventDoc)
    (doc : EventDoc) (hd : notifDoc n = some doc)
    (hmem : doc.request_id ∈ store.map EventDoc.request_id) :
    (webhook n.1 n.2 store).1 = store := by
  rw [webhook_fst]
  unfold notifDoc at hd
  by_cases h1 : (n.1 == some "push") = true
  · rw [if_pos h1] at hd ⊢
    unfold handle_push_event
    rw [hd]
    exact insert_if_new_of_mem doc store hmem
  · rw [if_neg h1] at hd ⊢
    by_cases h2 : (n.1 == some "pull_request") = true
    · rw [if_pos h2] at hd ⊢
      unfold handle_pull_request_event
      rw [hd]
      exact insert_if_new_of_mem doc store hmem
    · rw [if_neg h2] at hd
      exact absurd hd (by simp)

theorem webhook_idem (n : Notification) (store : List EventDoc) :
    (webhook n.1 n.2 (webhook n.1 n.2 store).1).1 = (webhook n.1 n.2 store).1 := by
  simp only [webhook_fst]
  by_cases h1 : (n.1 == some "push") = true
  · simp only [if_pos h1]
    exact handle_push_event_idem _ _
  · simp only [if_neg h1]
    by_cases h2 : (n.1 == some "pull_request") = true
    · simp only [if_pos h2]
      exact handle_pull_request_event_idem _ _
    · simp only [if_neg h2]

/-! ## Claims -/

/-- C1: sequential processing keeps the store free of duplicate
`request_id`s: every store reachable from the empty store satisfies
`UniqueKeys`; processing a notification whose derived identity key is
already present leaves the store unchanged; and re-submitting an identical
notification twice yields the same store as submitting it once. -/
theorem C1_dedup_invariant :
    (∀ ns : List Notification, UniqueKeys (processAll ns [])) ∧
    (∀ (n : Notification) (store : List EventDoc) (doc : EventDoc),
      notifDoc n = some doc →
      doc.request_id ∈ store.map EventDoc.request_id →
      (webhook n.1 n.2 store).1 = store) ∧
    (∀ (n : Notification) (store : List EventDoc),
      (webhook n.1 n.2 (webhook n.1 n.2 store).1).1 = (webhook n.1 n.2 store).1) :=
  ⟨fun ns => uniqueKeys_processAll ns [] List.Pairwise.nil,
   webhook_unchanged_of_dup,
   webhook_idem⟩

/-- Witness for C1: a concrete duplicate push (same commit hash already
stored) leaves the one-record store unchanged. -/
theorem C1_dedup_invariant_witness :
    (webhook (some "push") ⟨samplePush, emptyPR⟩ [samplePushDoc]).1 = [samplePushDoc] :=
  C1_dedup_invariant.2.1 (some "push", ⟨samplePush, emptyPR⟩) [samplePushDoc]
    samplePushDoc (by decide) (by decide)

theorem splitChar_ne_nil (sep : Char) (cs : List Char) : splitChar sep cs ≠ [] := by
  cases cs with
  | nil => simp [splitChar]
  | cons c rest =>
    simp only [splitChar]
    split
    · simp
    · split <;> simp

theorem splitChar_of_not_mem {sep : Char} {cs : List Char} (h : sep ∉ cs) :
    splitChar sep cs = [cs] := by
  induction cs with
  | nil => rfl
  | cons c rest ih =>
    have hc : ¬ c = sep := fun e => h (by simp [e])
    have hr : sep ∉ rest := fun m => h (List.mem_cons_of_mem _ m)
    simp only [splitChar, if_neg hc, ih hr]

theorem two_le_length_splitChar {sep : Char} {cs : List Char} (h : sep ∈ cs) :
    2 ≤ (splitChar sep cs).length := by
  induction cs with
  | nil => cases h
  | cons c rest ih =>
    by_cases hc : c = sep
    · simp only [splitChar, if_pos hc, List.length_cons]
      have h1 : 0 < (splitChar sep rest).length :=
        List.length_pos.mpr (splitChar_ne_nil sep rest)
      omega
    · have hr : sep ∈ rest := by
        rcases List.mem_cons.mp h with h' | h'
        · exact absurd h'.symm hc
        · exact h'
      have h2 := ih hr
      simp only [splitChar, if_neg hc]
      cases hs : splitChar sep rest with
      | nil => exact absurd hs (splitChar_ne_nil sep rest)
      | cons g gs =>
        rw [hs] at h2
        simpa using h2

theorem splitChar_append_sep (sep : Char) (xs ys : List Char) :
    (splitChar sep (xs ++ sep :: ys)).getLast? = (splitChar sep ys).getLast? := by
  induction xs with
  | nil =>
    rw [List.nil_append, splitChar, if_pos rfl]
    cases hs : splitChar sep ys with
    | nil => exact absurd hs (splitChar_ne_nil sep ys)
    | cons g gs => rw [List.getLast?_cons_cons]
  | cons c xs ih =>
    by_cases hc : c = sep
    · simp only [List.cons_append, splitChar, if_pos hc]
      cases hs : splitChar sep (xs ++ sep :: ys) with
      | nil => exact absurd hs (splitChar_ne_nil _ _)
      | cons g gs =>
        rw [List.getLast?_cons_cons, ← hs, ih]
    · simp only [List.cons_append, splitChar, if_neg hc]
      have hlen : 2 ≤ (splitChar sep (xs ++ sep :: ys)).length :=
        two_le_length_splitChar (by simp)
      cases hs : splitChar sep (xs ++ sep :: ys) with
      | nil => exact absurd hs (splitChar_ne_nil _ _)
      | cons g gs =>
        rw [hs] at hlen
        cases gs with
        | nil => simp at hlen
        | cons g2 gs2 =>
          have h' := ih
          rw [hs, List.getLast?_cons_cons] at h'
          rw [List.getLast?_cons_cons]
          exact h'

theorem lastSegment_no_sep (s : String) (h : '/' ∉ s.data) : lastSegment s = s := by
  unfold lastSegment
  rw [splitChar_of_not_mem h]
  cases s with
  | mk cs => rfl

theorem lastSegment_append (s t : String) (h : '/' ∉ t.data) :
    lastSegment (s ++ "/" ++ t) = t := by
  unfold lastSegment
  have hd : (s ++ "/" ++ t).data = s.data ++ '/' :: t.data := by
    rw [String.data_append, String.data_append]
    simp
  rw [hd, List.getLastD_eq_getLast?, splitChar_append_sep, splitChar_of_not_mem h]
  cases t with
  | mk cs => rfl

/-- C2: the push normalizer maps a payload with all fields present to the
record with `request_id` the head-commit id, author the pusher name, action
`PUSH`, no `from_branch`, the head-commit timestamp verbatim, and
`to_branch` the last `'/'`-separated segment of the ref (the whole ref when
it contains no `'/'`). -/
theorem C2_push_normalizer :
    (∀ cid name r ts : String,
      pushDoc { head_commit_id := some cid, pusher_name := some name,
                ref := some r, head_commit_timestamp := some ts } =
        some { request_id := cid, author := name, action := .PUSH,
               from_branch := none, to_branch := lastSegment r, timestamp := ts }) ∧
    (∀ s : String, '/' ∉ s.data → lastSegment s = s) ∧
    (∀ s t : String, '/' ∉ t.data → lastSegment (s ++ "/" ++ t) = t) :=
  ⟨fun _ _ _ _ => rfl, lastSegment_no_sep, lastSegment_append⟩

/-- Witness for C2: the branchless ref `"main"` maps to itself, and
`"refs/heads" ++ "/" ++ "main"` maps to `"main"`. -/
theorem C2_push_normalizer_witness :
    lastSegment "main" = "main" ∧
    lastSegment ("refs/heads" ++ "/" ++ "main") = "main" :=
  ⟨C2_push_normalizer.2.1 "main" (by decide),
   C2_push_normalizer.2.2 "refs/heads" "main" (by decide)⟩

theorem findByRequestId_append_none (store : List EventDoc) (d : EventDoc)
    (k : String) (h : findByRequestId store k = none) (hne : d.request_id ≠ k) :
    findByRequestId (store ++ [d]) k = none := by
  unfold findByRequestId at h ⊢
  rw [List.find?_append, h]
  simp [hne]

theorem handle_pr_inserts (p : PRPayload) (d : EventDoc) (store : List EventDoc)
    (hp : prDoc p = some d) (habs : findByRequestId store d.request_id = none) :
    handle_pull_request_event p store = store ++ [d] := by
  unfold handle_pull_request_event
  rw [hp]
  show insert_if_new d store = store ++ [d]
  unfold insert_if_new
  simp [habs]

/-- C3: an `opened` pull-request payload derives the `"pr_"`-prefixed key
with action `PULL_REQUEST`; the merge payload for the same id derives the
`"merge_"`-prefixed key with action `MERGE`; both take author from
`user.login`, `from_branch` from `head.ref`, `to_branch` from `base.ref`;
the two keys are distinct, so processing both stores two records. -/
theorem C3_pr_lifecycle :
    (∀ (rid author fb tb cts : String) (mat uat : Option String) (m : Bool),
      prDoc { action := some "opened", pr_id := some rid, user_login := some author,
              head_ref := some fb, base_ref := some tb, created_at := some cts,
              merged_at := mat, updated_at := uat, merged := m } =
        some { request_id := "pr_" ++ rid, author := author, action := .PULL_REQUEST,
               from_branch := some fb, to_branch := tb, timestamp := cts }) ∧
    (∀ (rid author fb tb uts : String) (cts mat : Option String),
      prDoc { action := some "closed", pr_id := some rid, user_login := some author,
              head_ref := some fb, base_ref := some tb, created_at := cts,
              merged_at := mat, updated_at := some uts, merged := true } =
        some { request_id := "merge_" ++ rid, author := author, action := .MERGE,
               from_branch := some fb, to_branch := tb, timestamp := mat.getD uts }) ∧
    (∀ rid : String, "pr_" ++ rid ≠ "merge_" ++ rid) ∧
    (∀ (p q : PRPayload) (d1 d2 : EventDoc) (store : List EventDoc),
      prDoc p = some d1 → prDoc q = some d2 →
      findByRequestId store d1.request_id = none →
      findByRequestId store d2.request_id = none →
      d1.request_id ≠ d2.request_id →
      handle_pull_request_event q (handle_pull_request_event p store) =
        store ++ [d1] ++ [d2]) := by
  refine ⟨fun _ _ _ _ _ _ _ _ => rfl, fun _ _ _ _ _ _ _ => rfl, ?_, ?_⟩
  · intro rid h
    have h' := congrArg String.length h
    rw [String.length_append, String.length_append] at h'
    have h3 : "pr_".length = 3 := rfl
    have h6 : "merge_".length = 6 := rfl
    rw [h3, h6] at h'
    omega
  · intro p q d1 d2 store hp hq h1 h2 hne
    rw [handle_pr_inserts p d1 store hp h1,
      handle_pr_inserts q d2 (store ++ [d1]) hq
        (findByRequestId_append_none store d1 _ h2 hne)]

/-- Witness for C3: opening then merging pull request 123 stores the two
records with keys `"pr_123"` and `"merge_123"`. -/
theorem C3_pr_lifecycle_witness :
    handle_pull_request_event sampleMergedPR
        (handle_pull_request_event sampleOpenedPR []) =
      [recOpened123, recMerged123] :=
  C3_pr_lifecycle.2.2.2 sampleOpenedPR sampleMergedPR recOpened123 recMerged123 []
    (by decide) (by decide) rfl rfl (by decide)

/-- C4: for a merge notification (`action = "closed"`, `merged = true`) the
stored record's timestamp is the `merged_at` value when that key is present,
and otherwise the `updated_at` value. -/
theorem C4_merge_timestamp :
    (∀ (rid author fb tb uts mts : String) (cts : Option String)
        (store : List EventDoc),
      findByRequestId store ("merge_" ++ rid) = none →
      handle_pull_request_event
          { action := some "closed", pr_id := some rid, user_login := some author,
            head_ref := some fb, base_ref := some tb, created_at := cts,
            merged_at := some mts, updated_at := some uts, merged := true } store =
        store ++ [{ request_id := "merge_" ++ rid, author := author,
                    action := .MERGE, from_branch := some fb, to_branch := tb,
                    timestamp := mts }]) ∧
    (∀ (rid author fb tb uts : String) (cts : Option String)
        (store : List EventDoc),
      findByRequestId store ("merge_" ++ rid) = none →
      handle_pull_request_event
          { action := some "closed", pr_id := some rid, user_login := some author,
            head_ref := some fb, base_ref := some tb, created_at := cts,
            merged_at := none, updated_at := some uts, merged := true } store =
        store ++ [{ request_id := "merge_" ++ rid, author := author,
                    action := .MERGE, from_branch := some fb, to_branch := tb,
                    timestamp := uts }]) := by
  constructor
  · intro rid author fb tb uts mts cts store h
    exact handle_pr_inserts _ _ store rfl h
  · intro rid author fb tb uts cts store h
    exact handle_pr_inserts _ _ store rfl h

/-- Witness for C4: with `merged_at` present the stored timestamp is the
merge time; with `merged_at` absent it is the last-updated time. -/
theorem C4_merge_timestamp_witness :
    handle_pull_request_event sampleMergedPR [] = [recMerged123] ∧
    handle_pull_request_event
        { sampleMergedPR with merged_at := none,
                              updated_at := some "2024-02-03T00:00:00Z" } [] =
      [{ recMerged123 with timestamp := "2024-02-03T00:00:00Z" }] :=
  ⟨C4_merge_timestamp.1 "123" "bob" "feature" "main" "2024-02-02T12:00:00Z"
      "2024-02-02T12:00:00Z" (some "2024-02-01T10:00:00Z") [] rfl,
   C4_merge_timestamp.2 "123" "bob" "feature" "main" "2024-02-03T00:00:00Z"
      (some "2024-02-01T10:00:00Z") [] rfl⟩

theorem prDoc_ignored (p : PRPayload) (a : String) (ha : p.action = some a)
    (hopen : a ≠ "opened") (hmerge : ¬(a = "closed" ∧ p.merged = true)) :
    prDoc p = none := by
  have hao : (a == "opened") = false := by simpa using hopen
  have hacm : (a == "closed" && p.merged) = false := by
    cases hb : a == "closed" with
    | false => rfl
    | true =>
      have hcl : a = "closed" := by simpa using hb
      cases hm : p.merged with
      | false => simp
      | true => exact absurd ⟨hcl, hm⟩ hmerge
  unfold prDoc
  rw [ha]
  rcases hi : p.pr_id with _ | rid <;>
    rcases hu : p.user_login with _ | au <;>
    rcases hh : p.head_ref with _ | fb <;>
    rcases hb : p.base_ref with _ | tb <;>
    try rfl
  unfold prTimestamp
  rcases hua : p.updated_at with _ | uts <;> simp [hua, hao, hacm]

theorem handle_pr_ignored (p : PRPayload) (a : String) (store : List EventDoc)
    (ha : p.action = some a) (hopen : a ≠ "opened")
    (hmerge : ¬(a = "closed" ∧ p.merged = true)) :
    handle_pull_request_event p store = store := by
  unfold handle_pull_request_event
  rw [prDoc_ignored p a ha hopen hmerge]

/-- C5: the endpoint routes kind tag `"push"` to the push handler and
`"pull_request"` to the pull-request handler, each acknowledged with
`success`/200; a pull-request payload with action `"opened"` normalizes to a
`PULL_REQUEST` record and one with action `"closed"` and `merged` true to a
`MERGE` record; any other action combination stores nothing; any other kind
tag, including an absent one, leaves the store unchanged and is still
acknowledged with `success`/200. -/
theorem C5_classifier :
    (∀ (pl : WebhookPayload) (store : List EventDoc),
      webhook (some "push") pl store =
        (handle_push_event pl.push store, ⟨"success", 200⟩)) ∧
    (∀ (pl : WebhookPayload) (store : List EventDoc),
      webhook (some "pull_request") pl store =
        (handle_pull_request_event pl.pr store, ⟨"success", 200⟩)) ∧
    (∀ (p : PRPayload) (d : EventDoc),
      p.action = some "opened" → prDoc p = some d → d.action = .PULL_REQUEST) ∧
    (∀ (p : PRPayload) (d : EventDoc),
      p.action = some "closed" → p.merged = true → prDoc p = some d →
      d.action = .MERGE) ∧
    (∀ (p : PRPayload) (a : String) (store : List EventDoc),
      p.action = some a → a ≠ "opened" → ¬(a = "closed" ∧ p.merged = true) →
      handle_pull_request_event p store = store) ∧
    (∀ (et : Option String) (pl : WebhookPayload) (store : List EventDoc),
      et ≠ some "push" → et ≠ some "pull_request" →
      webhook et pl store = (store, ⟨"success", 200⟩)) := by
  refine ⟨fun _ _ => rfl, fun _ _ => rfl, ?_, ?_, handle_pr_ignored, ?_⟩
  · intro p d ha hd
    obtain ⟨pa, pi, pu, ph, pb, pc, pma, pua, pm⟩ := p
    dsimp only at ha hd
    subst ha
    rcases pi with _ | rid <;> rcases pu with _ | au <;> rcases ph with _ | fb <;>
      rcases pb with _ | tb <;> rcases pc with _ | cts <;>
      simp [prDoc, prTimestamp] at hd
    rw [← hd]
  · intro p d ha hm hd
    obtain ⟨pa, pi, pu, ph, pb, pc, pma, pua, pm⟩ := p
    dsimp only at ha hm hd
    subst ha
    subst hm
    rcases pi with _ | rid <;> rcases pu with _ | au <;> rcases ph with _ | fb <;>
      rcases pb with _ | tb <;> rcases pua with _ | uts <;>
      simp [prDoc, prTimestamp] at hd
    rw [← hd]
  · intro et pl store h1 h2
    unfold webhook
    have b1 : (et == some "push") = false := by simpa using h1
    have b2 : (et == some "pull_request") = false := by simpa using h2
    simp [b1, b2]

/-- Witness for C5: an `opened` payload classifies as `PULL_REQUEST`, the
merge payload as `MERGE`, a `closed`-but-unmerged payload stores nothing,
and an absent kind tag is acknowledged with `success`/200 unchanged. -/
theorem C5_classifier_witness :
    recOpened123.action = EventAction.PULL_REQUEST ∧
    recMerged123.action = EventAction.MERGE ∧
    handle_pull_request_event { sampleMergedPR with merged := false } [] = [] ∧
    webhook none ⟨samplePush, emptyPR⟩ [] = ([], ⟨"success", 200⟩) :=
  ⟨C5_classifier.2.2.1 sampleOpenedPR recOpened123 rfl (by decide),
   C5_classifier.2.2.2.1 sampleMergedPR recMerged123 rfl rfl (by decide),
   C5_classifier.2.2.2.2.1 { sampleMergedPR with merged := false } "closed" []
     rfl (by decide) (by simp),
   C5_classifier.2.2.2.2.2 none ⟨samplePush, emptyPR⟩ [] (by simp) (by simp)⟩

/-- C6: the feed query returns exactly the stored records (as a
permutation), sorted by timestamp descending; on a store holding the
2024-01-01 and 2024-06-01 records, the June record comes first. -/
theorem C6_feed_sorted :
    (∀ store : List EventDoc,
      List.Sorted (fun a b : DisplayEvent => b.timestamp ≤ a.timestamp)
        (get_events store) ∧
      ((get_events store).map DisplayEvent.toEventDoc).Perm store) ∧
    (get_events [recJan, recJun]).map DisplayEvent.toEventDoc =
      [recJun, recJan] := by
  constructor
  · intro store
    constructor
    · unfold get_events
      exact List.Pairwise.map _ (fun a b h => h)
        (List.sorted_insertionSort tsGe store)
    · unfold get_events
      rw [List.map_map]
      have hid : (DisplayEvent.toEventDoc ∘ fun d : EventDoc =>
          ({ d with formatted_timestamp := format_timestamp d.timestamp } :
            DisplayEvent)) = id := rfl
      rw [hid, List.map_id]
      exact List.perm_insertionSort tsGe store
  · have hf : ¬ tsGe recJan recJun := by
      show ¬ (("2024-06-01T00:00:00Z" : String) ≤ "2024-01-01T00:00:00Z")
      rw [String.le_iff_toList_le]
      decide
    simp [get_events, List.insertionSort, List.orderedInsert, hf]

theorem daysInMonth_le (y m : Nat) : daysInMonth y m ≤ 31 := by
  unfold daysInMonth
  split
  · split <;> omega
  · split <;> omega

theorem ordinalSuffix_eq_claimedSuffix :
    ∀ d : Nat, d < 32 → ordinalSuffix d = claimedSuffix d := by decide

theorem fromisoformat_day_bounds (s : String) (dt : PyDateTime)
    (h : fromisoformat s = some dt) : 1 ≤ dt.day ∧ dt.day ≤ 31 := by
  unfold fromisoformat at h
  split at h
  · split at h
    · split at h
      · next hcond =>
        injection h with h
        subst h
        obtain ⟨_, _, h1, h2, _⟩ := hcond
        exact ⟨h1, le_trans h2 (daysInMonth_le _ _)⟩
      · exact absurd h (by simp)
    · exact absurd h (by simp)
  · exact absurd h (by simp)

/-- C7: on every timestamp the parser accepts, the formatter renders
`DDth Month YYYY - HH:MM AM/PM UTC` where the day's ordinal suffix follows
the spec's rule: days 11, 12, 13 use `th`, otherwise the last digit decides
(1 → st, 2 → nd, 3 → rd, default th). -/
theorem C7_timestamp_format (s : String) (dt : PyDateTime)
    (h : fromisoformat (pyReplaceZ s) = some dt) :
    format_timestamp s =
      pad2 dt.day ++ claimedSuffix dt.day ++ " " ++ monthName dt.month ++ " "
        ++ toString dt.year ++ " - " ++ pad2 (hour12 dt.hour) ++ ":"
        ++ pad2 dt.minute ++ " " ++ meridiem dt.hour ++ " UTC" := by
  have hb := fromisoformat_day_bounds _ _ h
  unfold format_timestamp
  rw [h]
  show strftimeRender dt (ordinalSuffix dt.day) = _
  unfold strftimeRender
  rw [ordinalSuffix_eq_claimedSuffix dt.day (by omega)]

/-- Witness for C7: `"2021-04-01T21:30:00Z"` renders as
`"01st April 2021 - 09:30 PM UTC"`, and a day-11 timestamp takes `th`. -/
theorem C7_timestamp_format_witness :
    format_timestamp "2021-04-01T21:30:00Z" = "01st April 2021 - 09:30 PM UTC" ∧
    format_timestamp "2024-05-11T23:59:00Z" = "11th May 2024 - 11:59 PM UTC" :=
  ⟨(C7_timestamp_format "2021-04-01T21:30:00Z" ⟨2021, 4, 1, 21, 30, 0⟩ rfl).trans rfl,
   (C7_timestamp_format "2024-05-11T23:59:00Z" ⟨2024, 5, 11, 23, 59, 0⟩ rfl).trans rfl⟩

theorem handle_push_eventF_fault (f : StoreFaults) (p : PushPayload)
    (store : List EventDoc) (hf : f.findFails = true ∨ f.insertFails = true) :
    handle_push_eventF f p store = store := by
  unfold handle_push_eventF
  cases hd : pushDoc p with
  | none => rfl
  | some doc => rcases hf with hf | hf <;> simp [hf]

theorem handle_pull_request_eventF_fault (f : StoreFaults) (p : PRPayload)
    (store : List EventDoc) (hf : f.findFails = true ∨ f.insertFails = true) :
    handle_pull_request_eventF f p store = store := by
  unfold handle_pull_request_eventF
  cases hd : prDoc p with
  | none => rfl
  | some doc => rcases hf with hf | hf <;> simp [hf]

/-- Counterexample to C8 as stated: with the store's lookup raising, a valid
push notification is still answered `{'status': 'success'}`, 200 — the
handler's own `except` block swallows the store error before it can reach
the endpoint's error branch — so no failure response is produced. -/
theorem C8_store_error_counterexample :
    webhookF ⟨true, false⟩ (some "push") ⟨samplePush, emptyPR⟩ [] =
      ([], ⟨"success", 200⟩) := rfl

/-- C8 amended: when a store lookup or insert raises while a notification is
processed, the handler catches the error, the store is left unchanged, and
the endpoint still acknowledges the request with `success`/200 rather than
a failure response. -/
theorem C8_store_error_amended (f : StoreFaults) (et : Option String)
    (pl : WebhookPayload) (store : List EventDoc)
    (hf : f.findFails = true ∨ f.insertFails = true) :
    webhookF f et pl store = (store, ⟨"success", 200⟩) := by
  unfold webhookF
  by_cases h1 : (et == some "push") = true
  · simp [h1, handle_push_eventF_fault f pl.push store hf]
  · by_cases h2 : (et == some "pull_request") = true
    · simp [h1, h2, handle_pull_request_eventF_fault f pl.pr store hf]
    · simp [h1, h2]

/-- Witness for C8 amended: a concrete faulting lookup on a push request
leaves the store as it was and answers `success`/200. -/
theorem C8_store_error_amended_witness :
    webhookF ⟨true, false⟩ (some "push") ⟨samplePush, emptyPR⟩ [samplePushDoc] =
      ([samplePushDoc], ⟨"success", 200⟩) :=
  C8_store_error_amended ⟨true, false⟩ (some "push") ⟨samplePush, emptyPR⟩
    [samplePushDoc] (Or.inl rfl)

/-- Counterexample to C9 as stated: under the interleaving in which both
duplicate checks run before either insert, two concurrent deliveries of the
same identity key BOTH observe an insertion, and the store ends with two
records carrying that `request_id` — not exactly one. -/
theorem C9_race_counterexample :
    observedInserted (runSchedule [true, false, true, false]
        ⟨samplePushDoc, 0, false⟩ ⟨samplePushDoc, 0, false⟩ []).1 ∧
    observedInserted (runSchedule [true, false, true, false]
        ⟨samplePushDoc, 0, false⟩ ⟨samplePushDoc, 0, false⟩ []).2.1 ∧
    countKey (runSchedule [true, false, true, false]
        ⟨samplePushDoc, 0, false⟩ ⟨samplePushDoc, 0, false⟩ []).2.2
      samplePushDoc.request_id = 2 := by
  refine ⟨by decide, by decide, by decide⟩

/-- C9 amended: exactly-one-wins holds only when the two check-then-insert
sequences do not interleave: under the serialized schedule the first caller
observes the insertion, the second observes the duplicate, and the store
gains exactly one record with the shared key (the interleaved schedule of
the counterexample violates the original claim). -/
theorem C9_serialized_amended (d1 d2 : EventDoc) (store : List EventDoc)
    (hk : d2.request_id = d1.request_id)
    (habs : findByRequestId store d1.request_id = none) :
    observedInserted (runSchedule [true, true, false, false]
        ⟨d1, 0, false⟩ ⟨d2, 0, false⟩ store).1 ∧
    ¬ observedInserted (runSchedule [true, true, false, false]
        ⟨d1, 0, false⟩ ⟨d2, 0, false⟩ store).2.1 ∧
    countKey (runSchedule [true, true, false, false]
        ⟨d1, 0, false⟩ ⟨d2, 0, false⟩ store).2.2 d1.request_id = 1 := by
  have h2 : findByRequestId (store ++ [d1]) d2.request_id = some d1 := by
    rw [hk]
    unfold findByRequestId at habs ⊢
    rw [List.find?_append, habs]
    simp
  have hcount : countKey store d1.request_id = 0 := by
    unfold countKey
    rw [List.countP_eq_zero]
    intro a ha
    simpa using (findByRequestId_eq_none store d1.request_id).mp habs a ha
  have hrun : runSchedule [true, true, false, false]
      ⟨d1, 0, false⟩ ⟨d2, 0, false⟩ store
      = (⟨d1, 2, false⟩, ⟨d2, 2, true⟩, store ++ [d1]) := by
    simp [runSchedule, stepThread, habs, h2]
  rw [hrun]
  refine ⟨⟨rfl, rfl⟩, ?_, ?_⟩
  · intro hobs
    exact absurd hobs.2 (by simp)
  · unfold countKey
    rw [List.countP_append]
    have h0 : List.countP (fun d => d.request_id == d1.request_id) store = 0 := hcount
    rw [h0]
    simp

/-- Witness for C9 amended: two same-key documents against the empty store,
serialized: the first inserts, the second sees the duplicate, one record
with the key remains. -/
theorem C9_serialized_amended_witness :
    observedInserted (runSchedule [true, true, false, false]
        ⟨samplePushDoc, 0, false⟩
        ⟨{ samplePushDoc with author := "mallory" }, 0, false⟩ []).1 ∧
    ¬ observedInserted (runSchedule [true, true, false, false]
        ⟨samplePushDoc, 0, false⟩
        ⟨{ samplePushDoc with author := "mallory" }, 0, false⟩ []).2.1 ∧
    countKey (runSchedule [true, true, false, false]
        ⟨samplePushDoc, 0, false⟩
        ⟨{ samplePushDoc with author := "mallory" }, 0, false⟩ []).2.2
      samplePushDoc.request_id = 1 :=
  C9_serialized_amended samplePushDoc { samplePushDoc with author := "mallory" }
    [] rfl rfl

/-- C10: push identity keys carry no namespace prefix (the derived
`request_id` is the head-commit id verbatim), and duplicate suppression
matches on the identity-key string alone, whatever kind of record holds it:
a push whose `head_commit.id` equals any stored record's `request_id` is
dropped and never stored. -/
theorem C10_cross_kind_dedup :
    (∀ (cid name r ts : String) (d : EventDoc),
      pushDoc ⟨some cid, some name, some r, some ts⟩ = some d →
      d.request_id = cid) ∧
    (∀ (p : PushPayload) (d : EventDoc) (store : List EventDoc),
      pushDoc p = some d →
      d.request_id ∈ store.map EventDoc.request_id →
      handle_push_event p store = store) := by
  constructor
  · intro cid name r ts d hd
    injection hd with hd
    rw [← hd]
  · intro p d store hd hmem
    unfold handle_push_event
    rw [hd]
    exact insert_if_new_of_mem d store hmem

/-- Witness for C10: a push whose commit id is the literal string
`"pr_123"` is silently dropped when a pull-request record with identity key
`"pr_123"` is already stored. -/
theorem C10_cross_kind_dedup_witness :
    handle_push_event ⟨some "pr_123", some "mallory", some "refs/heads/x",
        some "2024-03-01T00:00:00Z"⟩ [recOpened123] = [recOpened123] :=
  C10_cross_kind_dedup.2
    ⟨some "pr_123", some "mallory", some "refs/heads/x",
      some "2024-03-01T00:00:00Z"⟩
    { request_id := "pr_123", author := "mallory", action := .PUSH,
      from_branch := none, to_branch := "x",
      timestamp := "2024-03-01T00:00:00Z" }
    [recOpened123] (by decide) (by decide)

end Webhook
